import Mathlib

/-!
Verification of the Country Filter component
(`src/cli/internal/filter/country_filter.go`).

The Go code is shallowly embedded below:

* `ParseIP` models Go's `net.ParseIP` (which, in modern Go, delegates to
  `netip.ParseAddr` and rejects zones).  An IP address is a list of byte
  values; `ParseIP` always yields the 16-byte form, with IPv4 addresses in
  their 4-in-6 mapped representation, exactly as `net.ParseIP` does.
* `IsLoopback`, `IsPrivate`, `IsLinkLocalUnicast`, `IsLinkLocalMulticast`
  model the corresponding `net.IP` methods; `isPrivateIP` is the source's
  disjunction of the four.
* The geolocation collaborator (`geoip2.Reader`) is abstract: a `GeoDB` maps
  an IP to `none` (lookup error) or `some` record carrying the ISO code.
* `CountryFilter` carries the nilable database handle, the allow-set
  (a Go `map[string]bool`, modelled as its lookup function with default
  `false`), and the three `int64` counters (modelled as `Int`; they are only
  ever incremented by 1, far from the 64-bit range).
* `CountryFilter.IsAllowed` returns `none` exactly when the Go code would
  dereference a nil database handle (a panic); every other path yields
  `some` of the decision triple together with the updated filter state.
-/

/-- An IP address as in Go's `net` package: a list of byte values. -/
abbrev IP : Type := List Nat

/-! ## IPv4 textual parsing (Go `netip.parseIPv4`) -/

/--
Field-by-field parse of a dotted-decimal IPv4 address, following Go's
`netip.parseIPv4`: four fields of 1-3 decimal digits, values at most 255,
no leading zeros, no empty fields, nothing but digits and dots.
Arguments: remaining characters, current field value, number of digits seen
in the current field, completed fields.
-/
def parseIPv4Aux : List Char → Nat → Nat → List Nat → Option (List Nat)
  | [], val, _, fields =>
      if fields.length = 3 then some (fields ++ [val]) else none
  | c :: rest, val, digLen, fields =>
      if c.isDigit then
        if digLen = 1 && val = 0 then none
        else
          let val := val * 10 + (c.toNat - 48)
          if 255 < val then none
          else parseIPv4Aux rest val (digLen + 1) fields
      else if c = '.' then
        if digLen = 0 then none
        else if rest = [] then none
        else if fields.length = 3 then none
        else parseIPv4Aux rest 0 0 (fields ++ [val])
      else none

/-- Parse a dotted-decimal IPv4 address into its four byte values. -/
def parseIPv4Chars (s : List Char) : Option (List Nat) :=
  parseIPv4Aux s 0 0 []

/-! ## IPv6 textual parsing (Go `netip.parseIPv6`) -/

/-- Value of a hexadecimal digit character, as accepted by `netip.parseIPv6`. -/
def hexVal (c : Char) : Option Nat :=
  if '0' ≤ c && c ≤ '9' then some (c.toNat - 48)
  else if 'a' ≤ c && c ≤ 'f' then some (c.toNat - 97 + 10)
  else if 'A' ≤ c && c ≤ 'F' then some (c.toNat - 65 + 10)
  else none

/--
Parse a run of hexadecimal digits (one 16-bit chunk of an IPv6 address).
Returns the accumulated value, the number of digits consumed, and the rest of
the input; fails if the value reaches 2^16, as Go does.
-/
def parseV6Chunk : List Char → Nat → Nat → Option (Nat × Nat × List Char)
  | [], acc, off => some (acc, off, [])
  | c :: rest, acc, off =>
      match hexVal c with
      | some d =>
          let acc := acc * 16 + d
          if 65535 < acc then none
          else parseV6Chunk rest acc (off + 1)
      | none => some (acc, off, c :: rest)

/--
The main loop of Go's `netip.parseIPv6`: repeatedly parse a hex chunk, then
either an embedded trailing IPv4 address, the end of the input, a colon, or a
`::` ellipsis (at most one).  Returns the collected bytes, the byte position
of the ellipsis if one was seen, and the unconsumed input.  The fuel starts
at 8 and bounds the number of 16-bit chunks; each iteration adds two bytes,
so fuel is never exhausted before the 16-byte check stops the loop.
-/
def parseIPv6Loop : Nat → List Char → Option Nat → List Nat →
    Option (List Nat × Option Nat × List Char)
  | 0, _, _, _ => none
  | fuel + 1, s, ell, acc =>
      if 16 ≤ acc.length then some (acc, ell, s)
      else
        match parseV6Chunk s 0 0 with
        | none => none
        | some (v, off, rest) =>
            if off = 0 then none
            else if rest.head? = some '.' then
              if ell.isNone && acc.length ≠ 12 then none
              else if 16 < acc.length + 4 then none
              else
                match parseIPv4Chars s with
                | none => none
                | some ip4 => some (acc ++ ip4, ell, [])
            else
              let acc := acc ++ [v / 256, v % 256]
              match rest with
              | [] => some (acc, ell, [])
              | c :: rest2 =>
                  if c ≠ ':' then none
                  else if rest2 = [] then none
                  else if rest2.head? = some ':' then
                    if ell.isSome then none
                    else
                      let rest3 := rest2.tail
                      if rest3 = [] then some (acc, some acc.length, [])
                      else parseIPv6Loop fuel rest3 (some acc.length) acc
                  else parseIPv6Loop fuel rest2 ell acc

/--
Parse an IPv6 address, following Go's `netip.parseIPv6`: an optional leading
`::`, then hex chunks; afterwards the whole input must be consumed, and a
`::`, when present, must expand to at least one zero group.  Zones are
handled by the caller (`net.ParseIP` rejects them outright).
-/
def parseIPv6Chars (s : List Char) : Option (List Nat) :=
  let start : List Char × Option Nat :=
    match s with
    | ':' :: ':' :: rest => (rest, some 0)
    | _ => (s, none)
  match start with
  | (s2, ell) =>
      if ell = some 0 && s2 = [] then
        some (List.replicate 16 0)
      else
        match parseIPv6Loop 8 s2 ell [] with
        | none => none
        | some (acc, ell2, leftover) =>
            if leftover ≠ [] then none
            else if acc.length < 16 then
              match ell2 with
              | none => none
              | some e =>
                  some (acc.take e ++ List.replicate (16 - acc.length) 0 ++
                        acc.drop e)
            else if ell2.isSome then none
            else some acc

/-! ## `net.ParseIP` -/

/-- The 12-byte prefix of an IPv4-in-IPv6 mapped address. -/
def v4InV6Head : List Nat := [0, 0, 0, 0, 0, 0, 0, 0, 0, 0, 255, 255]

/-- Widen four IPv4 bytes to the 16-byte mapped form (Go `As16`). -/
def v4InV6 (ip4 : List Nat) : List Nat := v4InV6Head ++ ip4

/--
The dispatch loop of `netip.ParseAddr`: the first `.`, `:` or `%` decides
between IPv4 parsing, IPv6 parsing, and rejection.  `net.ParseIP`
additionally rejects any address carrying a zone, so an input containing `%`
can never produce an address; the IPv6 branch therefore refuses inputs
containing `%`.
-/
def parseIPDispatch (full : List Char) : List Char → Option IP
  | [] => none
  | c :: rest =>
      if c = '.' then (parseIPv4Chars full).map v4InV6
      else if c = ':' then
        if full.contains '%' then none else parseIPv6Chars full
      else if c = '%' then none
      else parseIPDispatch full rest

/-- Go's `net.ParseIP`: `none` models the `nil` result on invalid input. -/
def ParseIP (s : String) : Option IP :=
  parseIPDispatch s.data s.data

/-! ## `net.IP` classification predicates -/

namespace GoIP

/-- Go `IP.To4`: the 4-byte view of an address, when it is an IPv4 address. -/
def To4 (ip : IP) : Option (List Nat) :=
  if (List.length ip) = 4 then some ip
  else if (List.length ip) = 16 && List.take 12 ip == v4InV6Head then
    some (List.drop 12 ip)
  else none

/-- Go's `net.IPv6loopback` (`::1`). -/
def IPv6loopback : IP := List.replicate 15 0 ++ [1]

/-- Go `IP.IsLoopback`. -/
def IsLoopback (ip : IP) : Bool :=
  match To4 ip with
  | some ip4 => ip4.getD 0 0 == 127
  | none => ip == IPv6loopback

/-- Go `IP.IsPrivate`. -/
def IsPrivate (ip : IP) : Bool :=
  match To4 ip with
  | some ip4 =>
      ip4.getD 0 0 == 10 ||
      (ip4.getD 0 0 == 172 && (ip4.getD 1 0) &&& 240 == 16) ||
      (ip4.getD 0 0 == 192 && ip4.getD 1 0 == 168)
  | none => (List.length ip) == 16 && (ip.getD 0 0) &&& 254 == 252

/-- Go `IP.IsLinkLocalUnicast`. -/
def IsLinkLocalUnicast (ip : IP) : Bool :=
  match To4 ip with
  | some ip4 => ip4.getD 0 0 == 169 && ip4.getD 1 0 == 254
  | none =>
      (List.length ip) == 16 && ip.getD 0 0 == 254 &&
      (ip.getD 1 0) &&& 192 == 128

/-- Go `IP.IsLinkLocalMulticast`. -/
def IsLinkLocalMulticast (ip : IP) : Bool :=
  match To4 ip with
  | some ip4 =>
      ip4.getD 0 0 == 224 && ip4.getD 1 0 == 0 && ip4.getD 2 0 == 0
  | none =>
      (List.length ip) == 16 && ip.getD 0 0 == 255 &&
      (ip.getD 1 0) &&& 15 == 2

end GoIP

/-- The source's `isPrivateIP`: loopback, private, or link-local. -/
def isPrivateIP (ip : IP) : Bool :=
  GoIP.IsLoopback ip || GoIP.IsPrivate ip ||
  GoIP.IsLinkLocalUnicast ip || GoIP.IsLinkLocalMulticast ip

example : ParseIP "127.0.0.1" =
    some [0, 0, 0, 0, 0, 0, 0, 0, 0, 0, 255, 255, 127, 0, 0, 1] := by decide
example : (ParseIP "8.8.8.8").map isPrivateIP = some false := by decide
example : (ParseIP "127.0.0.1").map isPrivateIP = some true := by decide
example : (ParseIP "10.1.2.3").map isPrivateIP = some true := by decide
example : ParseIP "not-an-ip" = none := by decide
example : (ParseIP "::1").map isPrivateIP = some true := by decide
example : (ParseIP "2001:db8::1").map isPrivateIP = some false := by decide
example : ParseIP "2001:db8::1" =
    some [32, 1, 13, 184, 0, 0, 0, 0, 0, 0, 0, 0, 0, 0, 0, 1] := by decide
example : ParseIP "::ffff:192.168.0.1" =
    some [0, 0, 0, 0, 0, 0, 0, 0, 0, 0, 255, 255, 192, 168, 0, 1] := by decide
example : (ParseIP "::ffff:192.168.0.1").map isPrivateIP = some true := by
  decide
example : ParseIP "1.2.3.04" = none := by decide
example : ParseIP "256.1.1.1" = none := by decide
example : ParseIP "1.2.3" = none := by decide
example : ParseIP "fe80::1%eth0" = none := by decide
example : ParseIP "1:2:3:4:5:6:7:8:9" = none := by decide
example : ParseIP "" = none := by decide
example : ParseIP "::" = some (List.replicate 16 0) := by decide
example : (ParseIP "169.254.7.7").map isPrivateIP = some true := by decide
example : (ParseIP "224.0.0.5").map isPrivateIP = some true := by decide
example : (ParseIP "fe80::3").map isPrivateIP = some true := by decide
example : (ParseIP "ff02::1").map isPrivateIP = some true := by decide
example : (ParseIP "fd00::4").map isPrivateIP = some true := by decide
example : (ParseIP "172.16.0.1").map isPrivateIP = some true := by decide
example : (ParseIP "172.32.0.1").map isPrivateIP = some false := by decide

/-! ## The geolocation collaborator and the filter state -/

/-- The part of a `geoip2` country record the filter reads (`Country.IsoCode`). -/
structure GeoRecord where
  isoCode : String
deriving DecidableEq

/--
The geolocation collaborator (`geoip2.Reader`): a lookup from an IP address
to a country record, `none` modelling a lookup error (`err != nil`).
-/
def GeoDB : Type := IP → Option GeoRecord

/--
The `CountryFilter` struct.  `db` is the nilable `*geoip2.Reader` handle;
`allowedCountries` is the Go `map[string]bool`, modelled as its lookup
function (absent keys give `false`); the three `int64` counters follow.
-/
structure CountryFilter where
  db : Option GeoDB
  allowedCountries : String → Bool
  allowedCount : Int
  blockedCount : Int
  relayCount : Int

/--
The allow-set construction loop of `NewCountryFilter`: starting from the
empty map, set `allowed[cc] = true` for each code in order.
-/
def buildAllowed (ccs : List String) : String → Bool :=
  ccs.foldl (fun m cc => fun k => if k = cc then true else m k) (fun _ => false)

/--
`NewCountryFilter`.  The external `geoip2.Open` is passed in as `openDB`
(`none` modelling an open error); on error the constructor propagates it
(returns no filter), otherwise it returns the filter with the freshly built
allow-set and zeroed counters.
-/
def NewCountryFilter (openDB : String → Option GeoDB) (dbPath : String)
    (allowedCountries : List String) : Option CountryFilter :=
  match openDB dbPath with
  | none => none
  | some db =>
      some { db := some db
             allowedCountries := buildAllowed allowedCountries
             allowedCount := 0
             blockedCount := 0
             relayCount := 0 }

/--
`CountryFilter.IsAllowed`, the decision function.  The result is the
decision triple `(allowed, countryCode, isRelay)` paired with the updated
filter state; `none` models the nil-pointer panic that dereferencing an
uninitialized `db` handle would cause (unreachable for constructed filters).
-/
def CountryFilter.IsAllowed (f : CountryFilter) (ipStr : String) :
    Option ((Bool × String × Bool) × CountryFilter) :=
  match ParseIP ipStr with
  | none =>
      some ((false, "", false), { f with blockedCount := f.blockedCount + 1 })
  | some ip =>
      if isPrivateIP ip then
        some ((true, "RELAY", true), { f with relayCount := f.relayCount + 1 })
      else
        match f.db with
        | none => none
        | some db =>
            match db ip with
            | none =>
                some ((false, "UNKNOWN", false),
                      { f with blockedCount := f.blockedCount + 1 })
            | some record =>
                if record.isoCode = "" then
                  some ((false, "UNKNOWN", false),
                        { f with blockedCount := f.blockedCount + 1 })
                else if f.allowedCountries record.isoCode then
                  some ((true, record.isoCode, false),
                        { f with allowedCount := f.allowedCount + 1 })
                else
                  some ((false, record.isoCode, false),
                        { f with blockedCount := f.blockedCount + 1 })

/--
`CountryFilter.GetStats`: returns the `(allowed, blocked, relay)` counters
together with the receiver, whose fields the method body never assigns.
-/
def CountryFilter.GetStats (f : CountryFilter) :
    (Int × Int × Int) × CountryFilter :=
  ((f.allowedCount, f.blockedCount, f.relayCount), f)

/--
`CountryFilter.Close`: calls the collaborator's `Close` (passed in as
`closeDB`, returning `some` error or `none`) when the handle is non-nil,
and returns `nil` (`none`) otherwise.
-/
def CountryFilter.Close (closeDB : GeoDB → Option String) (f : CountryFilter) :
    Option String :=
  match f.db with
  | some db => closeDB db
  | none => none

/-- A sequence of `IsAllowed` calls, propagating the state (and any panic). -/
def runDecides (f : CountryFilter) : List String → Option CountryFilter
  | [] => some f
  | s :: rest =>
      match f.IsAllowed s with
      | none => none
      | some (_, f2) => runDecides f2 rest

/-- The sum of the three statistics counters. -/
def statsSum (f : CountryFilter) : Int :=
  f.allowedCount + f.blockedCount + f.relayCount

/-! ## Concrete instances used by the witnesses -/

/-- A collaborator that resolves every address to country code "US". -/
def dbUS : GeoDB := fun _ => some { isoCode := "US" }

/-- A collaborator whose lookups always fail. -/
def dbFail : GeoDB := fun _ => none

/-- A filter over `dbUS` with allow-set built from ["US", "CA"]. -/
def fUS : CountryFilter :=
  { db := some dbUS
    allowedCountries := buildAllowed ["US", "CA"]
    allowedCount := 0
    blockedCount := 0
    relayCount := 0 }

/-- A filter whose database handle was never initialized. -/
def fNil : CountryFilter :=
  { db := none
    allowedCountries := buildAllowed []
    allowedCount := 0
    blockedCount := 0
    relayCount := 0 }

/-! ## Claim theorems -/

/--
C1: an input parsing to a private, loopback, or link-local (unicast or
multicast) address makes IsAllowed return (true, "RELAY", true) and bump
only the relay counter, for every filter state whatsoever — in particular
for any allow-set and even for an uninitialized database handle, so the
geolocation lookup is never consulted.
-/
theorem C1_relay_short_circuit (f : CountryFilter) (s : String) (ip : IP)
    (hparse : ParseIP s = some ip)
    (hrelay : (GoIP.IsLoopback ip || GoIP.IsPrivate ip ||
               GoIP.IsLinkLocalUnicast ip ||
               GoIP.IsLinkLocalMulticast ip) = true) :
    f.IsAllowed s =
      some ((true, "RELAY", true),
            { f with relayCount := f.relayCount + 1 }) := by
  have hp : isPrivateIP ip = true := hrelay
  simp [CountryFilter.IsAllowed, hparse, hp]

/--
Witness for C1: the loopback address on a filter with no database handle
and an empty allow-set.
-/
theorem C1_witness :
    fNil.IsAllowed "127.0.0.1" =
      some ((true, "RELAY", true), { fNil with relayCount := fNil.relayCount + 1 }) :=
  C1_relay_short_circuit fNil "127.0.0.1"
    [0, 0, 0, 0, 0, 0, 0, 0, 0, 0, 255, 255, 127, 0, 0, 1]
    (by decide) (by decide)

/--
C2: a non-relay address whose lookup succeeds with a non-empty country code
in the allow-set is allowed: IsAllowed returns (true, code, false) and bumps
the allowed counter by one, leaving the other fields unchanged.
-/
theorem C2_allowed_country (f : CountryFilter) (s : String) (ip : IP)
    (g : GeoDB) (r : GeoRecord)
    (hparse : ParseIP s = some ip)
    (hpriv : isPrivateIP ip = false)
    (hdb : f.db = some g)
    (hlook : g ip = some r)
    (hne : r.isoCode ≠ "")
    (hmem : f.allowedCountries r.isoCode = true) :
    f.IsAllowed s =
      some ((true, r.isoCode, false),
            { f with allowedCount := f.allowedCount + 1 }) := by
  simp [CountryFilter.IsAllowed, hparse, hpriv, hdb, hlook, hne, hmem]

/-- Witness for C2: "8.8.8.8" resolving to "US" against allow-set {US, CA}. -/
theorem C2_witness :
    fUS.IsAllowed "8.8.8.8" =
      some ((true, "US", false), { fUS with allowedCount := fUS.allowedCount + 1 }) :=
  C2_allowed_country fUS "8.8.8.8"
    [0, 0, 0, 0, 0, 0, 0, 0, 0, 0, 255, 255, 8, 8, 8, 8]
    dbUS { isoCode := "US" }
    (by decide) (by decide) rfl rfl (by decide) (by decide)

/--
C3: a non-relay address whose lookup succeeds with a non-empty country code
absent from the allow-set is blocked: IsAllowed returns (false, code, false)
and bumps the blocked counter by one, leaving the other fields unchanged.
-/
theorem C3_blocked_country (f : CountryFilter) (s : String) (ip : IP)
    (g : GeoDB) (r : GeoRecord)
    (hparse : ParseIP s = some ip)
    (hpriv : isPrivateIP ip = false)
    (hdb : f.db = some g)
    (hlook : g ip = some r)
    (hne : r.isoCode ≠ "")
    (hmem : f.allowedCountries r.isoCode = false) :
    f.IsAllowed s =
      some ((false, r.isoCode, false),
            { f with blockedCount := f.blockedCount + 1 }) := by
  simp [CountryFilter.IsAllowed, hparse, hpriv, hdb, hlook, hne, hmem]

/-- A collaborator that resolves every address to country code "FR". -/
def dbFR : GeoDB := fun _ => some { isoCode := "FR" }

/-- A filter over `dbFR` with allow-set built from ["US", "CA"]. -/
def fFR : CountryFilter :=
  { db := some dbFR
    allowedCountries := buildAllowed ["US", "CA"]
    allowedCount := 0
    blockedCount := 0
    relayCount := 0 }

/-- Witness for C3: "203.0.113.5" resolving to "FR" against allow-set {US, CA}. -/
theorem C3_witness :
    fFR.IsAllowed "203.0.113.5" =
      some ((false, "FR", false), { fFR with blockedCount := fFR.blockedCount + 1 }) :=
  C3_blocked_country fFR "203.0.113.5"
    [0, 0, 0, 0, 0, 0, 0, 0, 0, 0, 255, 255, 203, 0, 113, 5]
    dbFR { isoCode := "FR" }
    (by decide) (by decide) rfl rfl (by decide) (by decide)

/--
C4: a non-relay address whose lookup fails, or succeeds with an empty
country code, is blocked as UNKNOWN: IsAllowed returns
(false, "UNKNOWN", false) and bumps the blocked counter by one.
-/
theorem C4_unknown_blocked (f : CountryFilter) (s : String) (ip : IP)
    (g : GeoDB)
    (hparse : ParseIP s = some ip)
    (hpriv : isPrivateIP ip = false)
    (hdb : f.db = some g)
    (hfail : g ip = none ∨ g ip = some { isoCode := "" }) :
    f.IsAllowed s =
      some ((false, "UNKNOWN", false),
            { f with blockedCount := f.blockedCount + 1 }) := by
  rcases hfail with h | h <;>
    simp [CountryFilter.IsAllowed, hparse, hpriv, hdb, h]

/-- A filter over `dbFail` with allow-set built from ["US", "CA"]. -/
def fFail : CountryFilter :=
  { db := some dbFail
    allowedCountries := buildAllowed ["US", "CA"]
    allowedCount := 0
    blockedCount := 0
    relayCount := 0 }

/-- Witness for C4: "9.9.9.9" with a failing lookup. -/
theorem C4_witness :
    fFail.IsAllowed "9.9.9.9" =
      some ((false, "UNKNOWN", false),
            { fFail with blockedCount := fFail.blockedCount + 1 }) :=
  C4_unknown_blocked fFail "9.9.9.9"
    [0, 0, 0, 0, 0, 0, 0, 0, 0, 0, 255, 255, 9, 9, 9, 9]
    dbFail (by decide) (by decide) rfl (Or.inl rfl)

/--
C5: an input that does not parse as an IP address is blocked rather than
raising an error: IsAllowed returns (false, "", false) and bumps the
blocked counter by one, for every filter state.
-/
theorem C5_invalid_blocked (f : CountryFilter) (s : String)
    (hparse : ParseIP s = none) :
    f.IsAllowed s =
      some ((false, "", false),
            { f with blockedCount := f.blockedCount + 1 }) := by
  simp [CountryFilter.IsAllowed, hparse]

/-- Witness for C5: the malformed input "not-an-ip". -/
theorem C5_witness :
    fUS.IsAllowed "not-an-ip" =
      some ((false, "", false), { fUS with blockedCount := fUS.blockedCount + 1 }) :=
  C5_invalid_blocked fUS "not-an-ip" (by decide)

/-! ## Counter bookkeeping (claim C6) -/

/-- Exactly one of the three counters advances by one, the other two stay. -/
def oneIncrement (f f2 : CountryFilter) : Prop :=
  (f2.allowedCount = f.allowedCount + 1 ∧ f2.blockedCount = f.blockedCount ∧
     f2.relayCount = f.relayCount) ∨
  (f2.blockedCount = f.blockedCount + 1 ∧ f2.allowedCount = f.allowedCount ∧
     f2.relayCount = f.relayCount) ∨
  (f2.relayCount = f.relayCount + 1 ∧ f2.allowedCount = f.allowedCount ∧
     f2.blockedCount = f.blockedCount)

/--
Every IsAllowed call on a filter with an initialized database handle
returns a decision, advances exactly one counter by one, and leaves the
handle and the allow-set unchanged.
-/
theorem isAllowed_step (g : GeoDB) (f : CountryFilter) (s : String)
    (hdb : f.db = some g) :
    ∃ d f2, f.IsAllowed s = some (d, f2) ∧ f2.db = f.db ∧
      f2.allowedCountries = f.allowedCountries ∧ oneIncrement f f2 := by
  unfold CountryFilter.IsAllowed
  rcases hP : ParseIP s with _ | ip
  · exact ⟨_, _, rfl, rfl, rfl, Or.inr (Or.inl ⟨rfl, rfl, rfl⟩)⟩
  · by_cases hp : isPrivateIP ip
    · simp only [hp, if_true]
      exact ⟨_, _, rfl, rfl, rfl, Or.inr (Or.inr ⟨rfl, rfl, rfl⟩)⟩
    · simp only [hp, if_false, hdb]
      rcases g ip with _ | r
      · exact ⟨_, _, rfl, rfl, rfl, Or.inr (Or.inl ⟨rfl, rfl, rfl⟩)⟩
      · by_cases he : r.isoCode = ""
        · simp only [he, if_true]
          exact ⟨_, _, rfl, rfl, rfl, Or.inr (Or.inl ⟨rfl, rfl, rfl⟩)⟩
        · simp only [he, if_false]
          by_cases hm : f.allowedCountries r.isoCode
          · simp only [hm, if_true]
            exact ⟨_, _, rfl, rfl, rfl, Or.inl ⟨rfl, rfl, rfl⟩⟩
          · simp only [hm, if_false]
            exact ⟨_, _, rfl, rfl, rfl, Or.inr (Or.inl ⟨rfl, rfl, rfl⟩)⟩

/-- One increment means the sum of the counters advances by exactly one. -/
theorem oneIncrement_sum (f f2 : CountryFilter) (h : oneIncrement f f2) :
    statsSum f2 = statsSum f + 1 := by
  rcases h with ⟨h1, h2, h3⟩ | ⟨h1, h2, h3⟩ | ⟨h1, h2, h3⟩ <;>
    simp [statsSum, h1, h2, h3] <;> ring

/-- Running a list of decisions from an initialized filter adds its length
to the counter sum. -/
theorem runDecides_sum (g : GeoDB) :
    ∀ (inputs : List String) (f : CountryFilter), f.db = some g →
      ∃ f2, runDecides f inputs = some f2 ∧
        statsSum f2 = statsSum f + inputs.length := by
  intro inputs
  induction inputs with
  | nil => exact fun f _ => ⟨f, rfl, by simp⟩
  | cons s rest ih =>
      intro f hdb
      obtain ⟨d, f2, hstep, hdbeq, -, hinc⟩ := isAllowed_step g f s hdb
      obtain ⟨f3, hrun, hsum3⟩ := ih f2 (hdbeq.trans hdb)
      refine ⟨f3, ?_, ?_⟩
      · simp [runDecides, hstep, hrun]
      · rw [hsum3, oneIncrement_sum f f2 hinc]
        simp only [List.length_cons]
        push_cast
        ring

/--
C6: on any filter with an initialized database handle, every IsAllowed call
advances exactly one of the three counters by exactly one (so none ever
decreases), and consequently, starting from a filter with zeroed counters,
after any sequence of N calls the sum of the GetStats counters is exactly N.
-/
theorem C6_counter_discipline (g : GeoDB) :
    (∀ (f : CountryFilter) (s : String), f.db = some g →
        ∃ d f2, f.IsAllowed s = some (d, f2) ∧ oneIncrement f f2 ∧
          f.allowedCount ≤ f2.allowedCount ∧
          f.blockedCount ≤ f2.blockedCount ∧
          f.relayCount ≤ f2.relayCount ∧
          statsSum f2 = statsSum f + 1) ∧
    (∀ (inputs : List String) (f : CountryFilter), f.db = some g →
        f.allowedCount = 0 → f.blockedCount = 0 → f.relayCount = 0 →
        ∃ f2, runDecides f inputs = some f2 ∧
          (f2.GetStats).1.1 + (f2.GetStats).1.2.1 + (f2.GetStats).1.2.2 =
            inputs.length) := by
  constructor
  · intro f s hdb
    obtain ⟨d, f2, hstep, -, -, hinc⟩ := isAllowed_step g f s hdb
    refine ⟨d, f2, hstep, hinc, ?_, ?_, ?_, oneIncrement_sum f f2 hinc⟩ <;>
      rcases hinc with ⟨h1, h2, h3⟩ | ⟨h1, h2, h3⟩ | ⟨h1, h2, h3⟩ <;>
        simp [h1, h2, h3]
  · intro inputs f hdb ha hb hr
    obtain ⟨f2, hrun, hsum⟩ := runDecides_sum g inputs f hdb
    refine ⟨f2, hrun, ?_⟩
    have h0 : statsSum f = 0 := by simp [statsSum, ha, hb, hr]
    rw [h0, zero_add] at hsum
    simpa [CountryFilter.GetStats, statsSum] using hsum

/--
Witness for C6: three concrete calls (an allowed country, a relay address,
a malformed input) from the fresh filter over dbUS leave a counter sum of 3.
-/
theorem C6_witness :
    ∃ f2, runDecides fUS ["8.8.8.8", "127.0.0.1", "not-an-ip"] = some f2 ∧
      (f2.GetStats).1.1 + (f2.GetStats).1.2.1 + (f2.GetStats).1.2.2 =
        (3 : Nat) :=
  (C6_counter_discipline dbUS).2 ["8.8.8.8", "127.0.0.1", "not-an-ip"] fUS
    rfl rfl rfl rfl

/-! ## Allow-set construction (claim C7) -/

/-- Folding map insertions of `true` gives lookup-or-membership. -/
theorem buildAllowed_foldl (l : List String) (m : String → Bool) (k : String) :
    l.foldl (fun m cc => fun k => if k = cc then true else m k) m k =
      (m k || decide (k ∈ l)) := by
  induction l generalizing m with
  | nil => simp
  | cons cc l ih =>
      simp only [List.foldl_cons, ih]
      by_cases h : k = cc <;> simp [h]

/-- The allow-set lookup is exactly membership in the constructor's list. -/
theorem buildAllowed_eq_mem (l : List String) (k : String) :
    buildAllowed l k = decide (k ∈ l) := by
  unfold buildAllowed
  rw [buildAllowed_foldl]
  simp

/-- When the database cannot be opened, the constructor propagates the
error and returns no filter. -/
theorem NewCountryFilter_none (openDB : String → Option GeoDB) (p : String)
    (l : List String) (h : openDB p = none) :
    NewCountryFilter openDB p l = none := by
  unfold NewCountryFilter
  rw [h]

/-- When the database opens, the constructor yields the filter with the
freshly built allow-set and zeroed counters. -/
theorem NewCountryFilter_some (openDB : String → Option GeoDB) (p : String)
    (l : List String) (g : GeoDB) (h : openDB p = some g) :
    NewCountryFilter openDB p l =
      some { db := some g
             allowedCountries := buildAllowed l
             allowedCount := 0
             blockedCount := 0
             relayCount := 0 } := by
  unfold NewCountryFilter
  rw [h]

/--
C7: construction fails exactly when the database at the given path cannot
be opened, and two constructions from country-code lists with the same
members (any order, any duplication) yield filters that make identical
decisions on every input.
-/
theorem C7_construction (openDB : String → Option GeoDB) (p : String) :
    (∀ l : List String,
        (NewCountryFilter openDB p l).isSome ↔ (openDB p).isSome) ∧
    (∀ l1 l2 : List String, (∀ c, c ∈ l1 ↔ c ∈ l2) →
        ∀ f1 f2, NewCountryFilter openDB p l1 = some f1 →
          NewCountryFilter openDB p l2 = some f2 →
          ∀ s, f1.IsAllowed s = f2.IsAllowed s) := by
  constructor
  · intro l
    unfold NewCountryFilter
    rcases openDB p with _ | g <;> simp
  · intro l1 l2 hmem f1 f2 h1 h2 s
    have hba : buildAllowed l1 = buildAllowed l2 := by
      funext k
      rw [buildAllowed_eq_mem, buildAllowed_eq_mem]
      simp [hmem k]
    rcases hO : openDB p with _ | g
    · rw [NewCountryFilter_none openDB p l1 hO] at h1
      cases h1
    · rw [NewCountryFilter_some openDB p l1 g hO] at h1
      rw [NewCountryFilter_some openDB p l2 g hO] at h2
      obtain rfl := Option.some_inj.mp h1
      obtain rfl := Option.some_inj.mp h2
      rw [hba]

/--
Witness for C7: the lists ["US", "CA", "US"] and ["US", "CA"] have the same
members, so the two constructed filters agree on "8.8.8.8".
-/
theorem C7_witness :
    CountryFilter.IsAllowed
        { db := some dbUS
          allowedCountries := buildAllowed ["US", "CA", "US"]
          allowedCount := 0
          blockedCount := 0
          relayCount := 0 } "8.8.8.8" =
      fUS.IsAllowed "8.8.8.8" :=
  (C7_construction (fun _ => some dbUS) "GeoLite2-Country.mmdb").2
    ["US", "CA", "US"] ["US", "CA"]
    (by intro c; simp [List.mem_cons]; tauto)
    _ fUS rfl rfl "8.8.8.8"

/-! ## Shutdown (claim C8) -/

/--
C8: Close delegates to the collaborator's Close exactly when the handle is
initialized, and is a no-op returning no error when the handle is nil.
-/
theorem C8_close_behavior (closeDB : GeoDB → Option String) (f : CountryFilter) :
    (f.db = none → CountryFilter.Close closeDB f = none) ∧
    (∀ g, f.db = some g → CountryFilter.Close closeDB f = closeDB g) := by
  constructor
  · intro h
    unfold CountryFilter.Close
    rw [h]
  · intro g h
    unfold CountryFilter.Close
    rw [h]

/-- Witness for C8: closing a never-initialized filter returns no error. -/
theorem C8_witness : CountryFilter.Close (fun _ => some "close failed") fNil = none :=
  (C8_close_behavior (fun _ => some "close failed") fNil).1 rfl

/-! ## Decision-triple invariants (claim C9) -/

/-- A collaborator that reports the sentinel strings "UNKNOWN" and "RELAY"
as ordinary country codes, depending on the queried address. -/
def dbSentinel : GeoDB :=
  fun ip => if ip.getD 12 0 == 8 then some { isoCode := "UNKNOWN" }
            else some { isoCode := "RELAY" }

/-- A filter over `dbSentinel` whose allow-set contains "UNKNOWN". -/
def fSentinel : CountryFilter :=
  { db := some dbSentinel
    allowedCountries := buildAllowed ["UNKNOWN"]
    allowedCount := 0
    blockedCount := 0
    relayCount := 0 }

/--
C9 counterexample: nothing stops the geolocation collaborator from
reporting "UNKNOWN" or "RELAY" as a country code, nor the allow-set from
containing them.  On `fSentinel`, the query "8.8.8.8" resolves to country
code "UNKNOWN", which is in the allow-set, so IsAllowed returns
(true, "UNKNOWN", false) — contradicting the claim that allowed is never
true with countryCode "UNKNOWN".  The query "9.9.9.9" resolves to country
code "RELAY" on a non-relay address, so IsAllowed returns
(false, "RELAY", false) with isRelay = false — contradicting the claimed
equivalence between isRelay and countryCode = "RELAY".
-/
theorem C9_counterexample :
    fSentinel.IsAllowed "8.8.8.8" =
      some ((true, "UNKNOWN", false),
            { fSentinel with allowedCount := fSentinel.allowedCount + 1 }) ∧
    fSentinel.IsAllowed "9.9.9.9" =
      some ((false, "RELAY", false),
            { fSentinel with blockedCount := fSentinel.blockedCount + 1 }) :=
  ⟨rfl, rfl⟩

/--
C9 (amended): for every input string and every filter state, a decision
triple returned by IsAllowed satisfies: if isRelay is true then countryCode
is "RELAY" and allowed is true; if allowed is true then isRelay is true or
countryCode is a non-empty code contained in the allow-set; and IsAllowed
never returns allowed = true with countryCode "".  (The converses fail
because the collaborator may itself report "RELAY" or "UNKNOWN" as a
country code, as the counterexample shows.)
-/
theorem C9_triple_invariant (f : CountryFilter) (s : String)
    (d : Bool × String × Bool) (f2 : CountryFilter)
    (h : f.IsAllowed s = some (d, f2)) :
    (d.2.2 = true → d.2.1 = "RELAY" ∧ d.1 = true) ∧
    (d.1 = true → d.2.2 = true ∨
        (d.2.1 ≠ "" ∧ f.allowedCountries d.2.1 = true)) ∧
    ¬(d.1 = true ∧ d.2.1 = "") := by
  unfold CountryFilter.IsAllowed at h
  split at h
  · injection h with h'
    injection h' with hd hf
    subst hd
    simp
  · split at h
    · injection h with h'
      injection h' with hd hf
      subst hd
      simp
    · split at h
      · exact Option.noConfusion h
      · split at h
        · injection h with h'
          injection h' with hd hf
          subst hd
          simp
        · split at h
          · injection h with h'
            injection h' with hd hf
            subst hd
            simp
          · split at h
            · injection h with h'
              injection h' with hd hf
              subst hd
              simp_all
            · injection h with h'
              injection h' with hd hf
              subst hd
              simp_all

/-- Witness for the amended C9: the allowed decision on "8.8.8.8" over fUS
carries either the relay flag or a non-empty allow-listed country code. -/
theorem C9_witness :
    ((true, "US", false) : Bool × String × Bool).2.2 = true ∨
      (((true, "US", false) : Bool × String × Bool).2.1 ≠ "" ∧
        fUS.allowedCountries ((true, "US", false) : Bool × String × Bool).2.1 =
          true) :=
  (C9_triple_invariant fUS "8.8.8.8" (true, "US", false)
    { fUS with allowedCount := fUS.allowedCount + 1 } rfl).2.1 rfl

/-! ## Statistics snapshot (claim C10) -/

/--
C10: GetStats returns the current counter values and leaves every field of
the filter state unchanged.
-/
theorem C10_getstats_pure (f : CountryFilter) :
    (f.GetStats).1.1 = f.allowedCount ∧
    (f.GetStats).1.2.1 = f.blockedCount ∧
    (f.GetStats).1.2.2 = f.relayCount ∧
    ((f.GetStats).2).db = f.db ∧
    ((f.GetStats).2).allowedCountries = f.allowedCountries ∧
    ((f.GetStats).2).allowedCount = f.allowedCount ∧
    ((f.GetStats).2).blockedCount = f.blockedCount ∧
    ((f.GetStats).2).relayCount = f.relayCount :=
  ⟨rfl, rfl, rfl, rfl, rfl, rfl, rfl, rfl⟩
